import Mathlib

/-!
A shallow embedding of the Training Session engine of the JumpingKids
backend (`src/services/training_service.py`) together with the data model
it operates on (`src/models/training.py`, `src/models/kid.py`,
`src/models/assignment.py`, `src/models/routine.py`).

Conventions of the embedding:
* Python `UUID` identifiers are represented by `Nat` keys.
* `datetime` timestamps are represented by `Nat` instants; every
  `datetime.utcnow()` call performed inside one engine operation is
  modelled by the single `now : Nat` argument of that operation.
* Python `int` fields carrying `ge=0`/`ge=1` pydantic bounds are `Nat`.
* `Optional[T]` is `Option T`; a pydantic model is a structure.
* The SQL store is a `DB` structure of lists, one per table, in insertion
  order.  `select(...).where(...).first()` is `List.find?` with the
  `where`-predicate; a `join` contributes the existence of a matching row
  of the joined table (`List.any`).  Mutating the ORM object returned by
  `first()` and committing is replacing the first row matching the same
  predicate (`updateFirst`).
* Each service method becomes a function `DB → ... → result × DB`
  returning the value the Python method returns together with the new
  store.  `None` results are `Option.none`; raised `HTTPException`s and
  the `TypeError` raised in `create_session` are the `CreateError`
  outcomes of `Except`.
-/

namespace JumpingKid

/-- `TrainingSessionStatus` from `src/models/training.py`. -/
inductive TrainingSessionStatus where
  | in_progress
  | completed
  | abandoned
  deriving DecidableEq, Repr

/-- `AssignmentStatus` from `src/models/assignment.py`. -/
inductive AssignmentStatus where
  | pending
  | in_progress
  | completed
  | skipped
  deriving DecidableEq, Repr

/-- `PreferredTime` from `src/models/kid.py`. -/
inductive PreferredTime where
  | morning
  | afternoon
  | evening
  deriving DecidableEq, Repr

/-- `DifficultyLevel` from `src/models/kid.py`. -/
inductive DifficultyLevel where
  | principiante
  | intermedio
  | avanzado
  deriving DecidableEq, Repr

/-- `KidPreferences` from `src/models/kid.py`. -/
structure KidPreferences where
  favorite_exercises : List String
  preferred_time : PreferredTime
  max_daily_exercises : Nat
  difficulty : DifficultyLevel
  deriving DecidableEq, Repr

/-- `KidStats` from `src/models/kid.py` (all eight fields). -/
structure KidStats where
  total_routines : Nat
  this_week_completed : Nat
  this_week_assigned : Nat
  current_streak : Nat
  longest_streak : Nat
  favorite_category : Option String
  total_minutes : Nat
  last_activity : Option Nat
  deriving DecidableEq, Repr

/-- `Kid` table row from `src/models/kid.py` (`birth_date` as a day
ordinal). -/
structure Kid where
  id : Nat
  user_id : Nat
  name : String
  age : Nat
  avatar : String
  birth_date : Nat
  preferences : KidPreferences
  stats : KidStats
  is_active : Bool
  created_at : Nat
  updated_at : Option Nat
  deriving DecidableEq, Repr

/-- `Assignment` table row from `src/models/assignment.py`
(`assigned_date` as a day ordinal). -/
structure Assignment where
  id : Nat
  routine_id : Nat
  kid_id : Nat
  assigned_date : Nat
  status : AssignmentStatus
  assigned_by : Nat
  completed_at : Option Nat
  completion_time_minutes : Option Nat
  exercises_completed : Option Nat
  notes : Option String
  created_at : Nat
  updated_at : Option Nat
  deriving DecidableEq, Repr

/-- `Routine` table row from `src/models/routine.py`.  Only the columns
the training engine reads (`id`, `is_active`) are carried; the catalog
columns (name, description, category, difficulty, duration, age group,
popularity score, ...) are never touched by `TrainingService`. -/
structure Routine where
  id : Nat
  is_active : Bool
  deriving DecidableEq, Repr

/-- `RoutineExercise` table row from `src/models/routine.py`. -/
structure RoutineExercise where
  id : Nat
  routine_id : Nat
  exercise_id : Nat
  order : Nat
  duration_seconds : Option Nat
  repetitions : Option Nat
  rest_seconds : Nat
  deriving DecidableEq, Repr

/-- `TrainingSession` table row from `src/models/training.py`. -/
structure TrainingSession where
  id : Nat
  kid_id : Nat
  assignment_id : Option Nat
  routine_id : Nat
  status : TrainingSessionStatus
  started_at : Nat
  completed_at : Option Nat
  current_exercise_index : Nat
  exercises_completed : Nat
  total_exercises : Nat
  total_time_minutes : Option Nat
  overall_rating : Option Nat
  notes : Option String
  created_at : Nat
  updated_at : Option Nat
  deriving DecidableEq, Repr

/-- `TrainingSessionCreate` from `src/models/training.py`: the base
fields plus a redundant `total_exercises : int = Field(ge=1)` column
declared on the create model itself. -/
structure TrainingSessionCreate where
  kid_id : Nat
  assignment_id : Option Nat
  routine_id : Nat
  status : TrainingSessionStatus
  total_exercises : Nat
  deriving DecidableEq, Repr

/-- `SessionCompletion` from `src/models/training.py`
(`total_time_minutes ≥ 1`, `exercises_completed ≥ 0`,
`overall_rating ∈ 1..5`, optional note). -/
structure SessionCompletion where
  total_time_minutes : Nat
  exercises_completed : Nat
  overall_rating : Nat
  notes : Option String
  deriving DecidableEq, Repr

/-- The relational store the engine runs against: one list per table, in
row-insertion order. -/
structure DB where
  kids : List Kid
  routines : List Routine
  routine_exercises : List RoutineExercise
  assignments : List Assignment
  sessions : List TrainingSession
  deriving DecidableEq, Repr

/-- The `stats_updated` dictionary returned by
`TrainingService.complete_session`. -/
structure StatsUpdated where
  new_streak : Nat
  total_minutes : Nat
  level_up : Bool
  deriving DecidableEq, Repr

/-- The dictionary returned by `TrainingService.complete_session`
(`{"session": ..., "stats_updated": ...}`). -/
structure CompleteSessionResult where
  session : TrainingSession
  stats_updated : StatsUpdated
  deriving DecidableEq, Repr

/-- The failure outcomes of `TrainingService.create_session`: the three
`HTTPException(404)`s it raises, plus the `TypeError` raised by the
constructor call `TrainingSession(**session_data.model_dump(),
total_exercises=total_exercises)` — `total_exercises` is a declared
field of `TrainingSessionCreate`, hence already a key of
`session_data.model_dump()`, and Python rejects the duplicate keyword
argument. -/
inductive CreateError where
  | kidNotFound
  | routineNotFound
  | assignmentNotFound
  | typeErrorDuplicateKeyword
  deriving DecidableEq, Repr

/-- Replace the first element satisfying `p` by its image under `f`;
rows before it are untouched and at most one row changes.  This is how a
committed mutation of the single ORM object returned by `.first()` acts
on the table. -/
def updateFirst {α : Type} (p : α → Bool) (f : α → α) : List α → List α
  | [] => []
  | x :: xs => if p x then f x :: xs else x :: updateFirst p f xs

/-- The `where`-predicate of the session lookup shared by `get_session`
and `complete_session` (lines 97–102 and 152–157 of
`training_service.py`): `select(TrainingSession).join(Kid)` with
`TrainingSession.id == session_id` and `Kid.user_id == user_id`; the
join itself equates `Kid.id` with `TrainingSession.kid_id`. -/
def sessionOwnedBy (kids : List Kid) (session_id user_id : Nat) (s : TrainingSession) : Bool :=
  s.id == session_id &&
    kids.any (fun k => k.id == s.kid_id && k.user_id == user_id)

/-- The `where`-predicate of the session lookup in `complete_exercise`
(lines 116–122): the ownership join plus
`TrainingSession.status == IN_PROGRESS`. -/
def sessionOwnedInProgress (kids : List Kid) (session_id user_id : Nat) (s : TrainingSession) : Bool :=
  sessionOwnedBy kids session_id user_id s &&
    s.status == TrainingSessionStatus.in_progress

/-- `TrainingService.get_session` (lines 95–107): return the session
only when the ownership join finds it, else `None`.  The
`TrainingSessionRead` payload carries exactly the row's fields, so the
row itself is returned. -/
def get_session (db : DB) (session_id user_id : Nat) : Option TrainingSession :=
  db.sessions.find? (sessionOwnedBy db.kids session_id user_id)

/-- The progress update performed by `complete_exercise`
(lines 128–136): increment `exercises_completed` and
`current_exercise_index` by one and stamp `updated_at`; then, when
`exercises_completed >= total_exercises`, set status `COMPLETED` and
stamp `completed_at`. -/
def exerciseStep (s : TrainingSession) (now : Nat) : TrainingSession :=
  let s1 : TrainingSession :=
    { s with
      exercises_completed := s.exercises_completed + 1
      current_exercise_index := s.current_exercise_index + 1
      updated_at := some now }
  if s1.exercises_completed ≥ s1.total_exercises then
    { s1 with status := TrainingSessionStatus.completed, completed_at := some now }
  else s1

/-- `TrainingService.complete_exercise` (lines 109–142): find the owned
`IN_PROGRESS` session, else return `None`; rewrite it with
`exerciseStep`, commit, and return the updated session. -/
def complete_exercise (db : DB) (session_id user_id now : Nat) :
    Option TrainingSession × DB :=
  match db.sessions.find? (sessionOwnedInProgress db.kids session_id user_id) with
  | none => (none, db)
  | some s =>
    (some (exerciseStep s now),
      { db with
        sessions :=
          updateFirst (sessionOwnedInProgress db.kids session_id user_id)
            (fun _ => exerciseStep s now) db.sessions })

/-- The kid-stats update performed inside `complete_session`
(lines 194–207): the stats dictionary gets `total_routines`,
`this_week_completed` and `current_streak` incremented,
`total_minutes` increased by the input's `total_time_minutes`,
`last_activity` set to now, and then `longest_streak` is raised to
`current_streak` when the (already incremented) `current_streak`
exceeds it.  `this_week_assigned` and `favorite_category` are not
mentioned by the code. -/
def updateKidStats (st : KidStats) (cd : SessionCompletion) (now : Nat) : KidStats :=
  let st1 : KidStats :=
    { st with
      total_routines := st.total_routines + 1
      this_week_completed := st.this_week_completed + 1
      current_streak := st.current_streak + 1
      total_minutes := st.total_minutes + cd.total_time_minutes
      last_activity := some now }
  if st1.current_streak > st1.longest_streak then
    { st1 with longest_streak := st1.current_streak }
  else st1

/-- The session-row overwrite performed by `complete_session`
(lines 163–170). -/
def finalizeSession (s : TrainingSession) (cd : SessionCompletion) (now : Nat) :
    TrainingSession :=
  { s with
    status := TrainingSessionStatus.completed
    completed_at := some now
    total_time_minutes := some cd.total_time_minutes
    exercises_completed := cd.exercises_completed
    overall_rating := some cd.overall_rating
    notes := cd.notes
    updated_at := some now }

/-- The assignment-row overwrite performed by `complete_session`
(lines 181–186): status `COMPLETED`, `completed_at` stamped (the source
assigns it twice in a row), completion time and exercise count copied
from the input, `updated_at` stamped; `notes` untouched. -/
def completeAssignment (a : Assignment) (cd : SessionCompletion) (now : Nat) :
    Assignment :=
  { a with
    status := AssignmentStatus.completed
    completed_at := some now
    completion_time_minutes := some cd.total_time_minutes
    exercises_completed := some cd.exercises_completed
    updated_at := some now }

/-- `TrainingService.complete_session` (lines 144–224): find the session
through the ownership join (no status filter), else return `None`;
overwrite the session's completion fields from the input; when the
session references an assignment and that assignment row exists, mark it
completed; look the kid up by `session.kid_id` and, when found, replace
its embedded stats with `updateKidStats` and stamp `updated_at`; return
the updated session plus the `stats_updated` summary (zeros when no kid
row was found). -/
def complete_session (db : DB) (session_id : Nat) (cd : SessionCompletion)
    (user_id now : Nat) : Option CompleteSessionResult × DB :=
  match db.sessions.find? (sessionOwnedBy db.kids session_id user_id) with
  | none => (none, db)
  | some s =>
    let s2 := finalizeSession s cd now
    let db1 : DB :=
      { db with
        sessions :=
          updateFirst (sessionOwnedBy db.kids session_id user_id)
            (fun _ => s2) db.sessions }
    let db2 : DB :=
      match s.assignment_id with
      | none => db1
      | some aid =>
        match db.assignments.find? (fun a => a.id == aid) with
        | none => db1
        | some _ =>
          { db1 with
            assignments :=
              updateFirst (fun a => a.id == aid)
                (fun a => completeAssignment a cd now) db1.assignments }
    match db.kids.find? (fun k => k.id == s.kid_id) with
    | none =>
      (some
        { session := s2
          stats_updated := { new_streak := 0, total_minutes := 0, level_up := false } },
        db2)
    | some kid =>
      let newStats := updateKidStats kid.stats cd now
      let db3 : DB :=
        { db2 with
          kids :=
            updateFirst (fun k => k.id == s.kid_id)
              (fun k => { k with stats := newStats, updated_at := some now })
              db2.kids }
      (some
        { session := s2
          stats_updated :=
            { new_streak := newStats.current_streak
              total_minutes := newStats.total_minutes
              level_up := false } },
        db3)

/-- `TrainingService.create_session` (lines 29–93): check the kid is
owned, active and exists; check the routine exists and is active; count
the routine's `RoutineExercise` rows; check the assignment when one is
given; then evaluate `TrainingSession(**session_data.model_dump(),
total_exercises=total_exercises)` — which raises
`TypeError: got multiple values for keyword argument "total_exercises"`
because `TrainingSessionCreate` itself declares `total_exercises`, so
the checks are the only observable behaviour and no row is ever
inserted. -/
def create_session (db : DB) (sd : TrainingSessionCreate) (user_id : Nat) :
    Except CreateError TrainingSession × DB :=
  match db.kids.find?
      (fun k => k.id == sd.kid_id && k.user_id == user_id && k.is_active) with
  | none => (Except.error CreateError.kidNotFound, db)
  | some _ =>
    match db.routines.find? (fun r => r.id == sd.routine_id && r.is_active) with
    | none => (Except.error CreateError.routineNotFound, db)
    | some _ =>
      let _total_exercises :=
        (db.routine_exercises.filter
          (fun re => re.routine_id == sd.routine_id)).length
      match sd.assignment_id with
      | some aid =>
        match db.assignments.find?
            (fun a =>
              a.id == aid && a.kid_id == sd.kid_id &&
                db.kids.any (fun k => k.id == a.kid_id && k.user_id == user_id)) with
        | none => (Except.error CreateError.assignmentNotFound, db)
        | some _ => (Except.error CreateError.typeErrorDuplicateKeyword, db)
      | none => (Except.error CreateError.typeErrorDuplicateKeyword, db)

/-- The session-row invariant maintained by the exercise-progression
loop: an `IN_PROGRESS` session has strictly fewer completed exercises
than its total (a fresh session starts at `0 < total_exercises`, and
`complete_exercise` finalizes the session the moment the count reaches
the total). -/
def sessionInv (s : TrainingSession) : Prop :=
  s.status = TrainingSessionStatus.in_progress →
    s.exercises_completed < s.total_exercises

/-! ### Concrete fixtures used by scenario theorems -/

def prefs0 : KidPreferences :=
  { favorite_exercises := [], preferred_time := PreferredTime.morning,
    max_daily_exercises := 5, difficulty := DifficultyLevel.principiante }

def stats0 : KidStats :=
  { total_routines := 0, this_week_completed := 0, this_week_assigned := 0,
    current_streak := 0, longest_streak := 0, favorite_category := none,
    total_minutes := 0, last_activity := none }

/-- A kid owned by user `1`. -/
def kid1 : Kid :=
  { id := 1, user_id := 1, name := "Ana", age := 8, avatar := "boy-smile",
    birth_date := 0, preferences := prefs0, stats := stats0, is_active := true,
    created_at := 0, updated_at := none }

def routine1 : Routine := { id := 1, is_active := true }

def rex1 : RoutineExercise :=
  { id := 1, routine_id := 1, exercise_id := 1, order := 1,
    duration_seconds := some 30, repetitions := none, rest_seconds := 10 }

def rex2 : RoutineExercise :=
  { id := 2, routine_id := 1, exercise_id := 2, order := 2,
    duration_seconds := none, repetitions := some 10, rest_seconds := 10 }

/-- A fresh `IN_PROGRESS` session of `kid1` with three exercises. -/
def session1 : TrainingSession :=
  { id := 1, kid_id := 1, assignment_id := none, routine_id := 1,
    status := TrainingSessionStatus.in_progress, started_at := 0,
    completed_at := none, current_exercise_index := 0, exercises_completed := 0,
    total_exercises := 3, total_time_minutes := none, overall_rating := none,
    notes := none, created_at := 0, updated_at := none }

/-- A pending assignment of `routine1` to `kid1`. -/
def assignment1 : Assignment :=
  { id := 1, routine_id := 1, kid_id := 1, assigned_date := 0,
    status := AssignmentStatus.pending, assigned_by := 1, completed_at := none,
    completion_time_minutes := none, exercises_completed := none, notes := none,
    created_at := 0, updated_at := none }

/-- A session of `kid1` that already reached the terminal `COMPLETED`
state and references `assignment1`. -/
def sessionDone : TrainingSession :=
  { session1 with
    id := 2
    assignment_id := some 1
    status := TrainingSessionStatus.completed
    exercises_completed := 3
    current_exercise_index := 3
    completed_at := some 4 }

/-- Base store: one kid, one routine with two exercise rows, one open
session. -/
def db0 : DB :=
  { kids := [kid1], routines := [routine1], routine_exercises := [rex1, rex2],
    assignments := [], sessions := [session1] }

/-- Store with an assignment and a terminal session referencing it. -/
def dbA : DB :=
  { db0 with assignments := [assignment1], sessions := [session1, sessionDone] }

/-- A valid completion input (`time=10`, `exercises=2`, `rating=5`). -/
def cd1 : SessionCompletion :=
  { total_time_minutes := 10, exercises_completed := 2, overall_rating := 5,
    notes := none }

/-- A completion input whose caller-supplied exercise count (100) exceeds
any session's total. -/
def cd100 : SessionCompletion := { cd1 with exercises_completed := 100 }

/-- A creation request for `kid1`/`routine1` with no assignment. -/
def sd1 : TrainingSessionCreate :=
  { kid_id := 1, assignment_id := none, routine_id := 1,
    status := TrainingSessionStatus.in_progress, total_exercises := 2 }

/-- Store after one `complete_exercise` call on `session1`. -/
def dbE1 : DB := (complete_exercise db0 1 1 21).2

/-- Store after two `complete_exercise` calls on `session1`. -/
def dbE2 : DB := (complete_exercise dbE1 1 1 22).2

/-- Store after three `complete_exercise` calls on `session1`
(the third call reaches `total_exercises = 3`). -/
def dbE3 : DB := (complete_exercise dbE2 1 1 23).2

/-! ### List-store lemmas -/

/-- If `find?` locates `x`, the table splits as `l₁ ++ x :: l₂` with the
predicate false on every earlier row. -/
theorem find?_decomp {α : Type} {p : α → Bool} {xs : List α} {x : α}
    (h : xs.find? p = some x) :
    ∃ l₁ l₂, xs = l₁ ++ x :: l₂ ∧ ∀ y ∈ l₁, p y = false := by
  induction xs with
  | nil => simp at h
  | cons a as ih =>
    by_cases ha : p a
    · rw [List.find?_cons_of_pos _ ha] at h
      injection h with h
      subst h
      exact ⟨[], as, rfl, by simp⟩
    · rw [List.find?_cons_of_neg _ (by simpa using ha)] at h
      obtain ⟨l₁, l₂, hxs, hl₁⟩ := ih h
      refine ⟨a :: l₁, l₂, by simp [hxs], ?_⟩
      intro y hy
      rcases List.mem_cons.1 hy with rfl | hy
      · simpa using ha
      · exact hl₁ y hy

/-- `find?` over a split table returns the distinguished middle row when
the predicate is false before it and true on it. -/
theorem find?_middle {α : Type} {q : α → Bool} {l₁ : List α} (l₂ : List α) {y : α}
    (h₁ : ∀ z ∈ l₁, q z = false) (h₂ : q y = true) :
    (l₁ ++ y :: l₂).find? q = some y := by
  induction l₁ with
  | nil => simpa using List.find?_cons_of_pos _ h₂
  | cons a l ih =>
    have ha : q a = false := h₁ a (List.mem_cons_self a l)
    rw [List.cons_append, List.find?_cons_of_neg _ (by simp [ha])]
    exact ih fun z hz => h₁ z (List.mem_cons_of_mem _ hz)

/-- `updateFirst` over a split table rewrites exactly the distinguished
middle row when the predicate is false before it and true on it. -/
theorem updateFirst_middle {α : Type} {p : α → Bool} (f : α → α) {l₁ : List α}
    (l₂ : List α) {y : α} (h₁ : ∀ z ∈ l₁, p z = false) (h₂ : p y = true) :
    updateFirst p f (l₁ ++ y :: l₂) = l₁ ++ f y :: l₂ := by
  induction l₁ with
  | nil => simp [updateFirst, h₂]
  | cons a l ih =>
    have ha : p a = false := h₁ a (List.mem_cons_self a l)
    simp only [List.cons_append, updateFirst, ha, Bool.false_eq_true, if_false,
      List.append_eq]
    rw [ih fun z hz => h₁ z (List.mem_cons_of_mem _ hz)]

/-! ### Projection lemmas for the row-overwrite helpers -/

@[simp] theorem finalizeSession_id (s : TrainingSession) (cd : SessionCompletion)
    (now : Nat) : (finalizeSession s cd now).id = s.id := rfl

@[simp] theorem finalizeSession_kid_id (s : TrainingSession) (cd : SessionCompletion)
    (now : Nat) : (finalizeSession s cd now).kid_id = s.kid_id := rfl

@[simp] theorem finalizeSession_assignment_id (s : TrainingSession)
    (cd : SessionCompletion) (now : Nat) :
    (finalizeSession s cd now).assignment_id = s.assignment_id := rfl

@[simp] theorem finalizeSession_status (s : TrainingSession) (cd : SessionCompletion)
    (now : Nat) :
    (finalizeSession s cd now).status = TrainingSessionStatus.completed := rfl

@[simp] theorem finalizeSession_exercises_completed (s : TrainingSession)
    (cd : SessionCompletion) (now : Nat) :
    (finalizeSession s cd now).exercises_completed = cd.exercises_completed := rfl

@[simp] theorem updateKidStats_total_routines (st : KidStats) (cd : SessionCompletion)
    (now : Nat) :
    (updateKidStats st cd now).total_routines = st.total_routines + 1 := by
  unfold updateKidStats; dsimp only; split <;> rfl

@[simp] theorem updateKidStats_this_week_completed (st : KidStats)
    (cd : SessionCompletion) (now : Nat) :
    (updateKidStats st cd now).this_week_completed = st.this_week_completed + 1 := by
  unfold updateKidStats; dsimp only; split <;> rfl

@[simp] theorem updateKidStats_current_streak (st : KidStats) (cd : SessionCompletion)
    (now : Nat) :
    (updateKidStats st cd now).current_streak = st.current_streak + 1 := by
  unfold updateKidStats; dsimp only; split <;> rfl

@[simp] theorem updateKidStats_total_minutes (st : KidStats) (cd : SessionCompletion)
    (now : Nat) :
    (updateKidStats st cd now).total_minutes = st.total_minutes + cd.total_time_minutes := by
  unfold updateKidStats; dsimp only; split <;> rfl

@[simp] theorem updateKidStats_last_activity (st : KidStats) (cd : SessionCompletion)
    (now : Nat) : (updateKidStats st cd now).last_activity = some now := by
  unfold updateKidStats; dsimp only; split <;> rfl

@[simp] theorem updateKidStats_this_week_assigned (st : KidStats)
    (cd : SessionCompletion) (now : Nat) :
    (updateKidStats st cd now).this_week_assigned = st.this_week_assigned := by
  unfold updateKidStats; dsimp only; split <;> rfl

@[simp] theorem updateKidStats_favorite_category (st : KidStats)
    (cd : SessionCompletion) (now : Nat) :
    (updateKidStats st cd now).favorite_category = st.favorite_category := by
  unfold updateKidStats; dsimp only; split <;> rfl

@[simp] theorem updateKidStats_longest_streak (st : KidStats) (cd : SessionCompletion)
    (now : Nat) :
    (updateKidStats st cd now).longest_streak
      = max st.longest_streak (st.current_streak + 1) := by
  unfold updateKidStats
  dsimp only
  split <;> rename_i h <;> dsimp only at h ⊢
  · exact (max_eq_right (by omega)).symm
  · exact (max_eq_left (by omega)).symm

@[simp] theorem exerciseStep_id (s : TrainingSession) (now : Nat) :
    (exerciseStep s now).id = s.id := by
  unfold exerciseStep; dsimp only; split <;> rfl

@[simp] theorem exerciseStep_kid_id (s : TrainingSession) (now : Nat) :
    (exerciseStep s now).kid_id = s.kid_id := by
  unfold exerciseStep; dsimp only; split <;> rfl

@[simp] theorem exerciseStep_exercises_completed (s : TrainingSession) (now : Nat) :
    (exerciseStep s now).exercises_completed = s.exercises_completed + 1 := by
  unfold exerciseStep; dsimp only; split <;> rfl

@[simp] theorem exerciseStep_current_exercise_index (s : TrainingSession) (now : Nat) :
    (exerciseStep s now).current_exercise_index = s.current_exercise_index + 1 := by
  unfold exerciseStep; dsimp only; split <;> rfl

@[simp] theorem exerciseStep_total_exercises (s : TrainingSession) (now : Nat) :
    (exerciseStep s now).total_exercises = s.total_exercises := by
  unfold exerciseStep; dsimp only; split <;> rfl

@[simp] theorem exerciseStep_updated_at (s : TrainingSession) (now : Nat) :
    (exerciseStep s now).updated_at = some now := by
  unfold exerciseStep; dsimp only; split <;> rfl

theorem exerciseStep_status_of_ge (s : TrainingSession) (now : Nat)
    (h : s.exercises_completed + 1 ≥ s.total_exercises) :
    (exerciseStep s now).status = TrainingSessionStatus.completed ∧
      (exerciseStep s now).completed_at = some now := by
  unfold exerciseStep
  dsimp only
  rw [if_pos h]
  exact ⟨rfl, rfl⟩

theorem exerciseStep_status_of_lt (s : TrainingSession) (now : Nat)
    (h : s.exercises_completed + 1 < s.total_exercises) :
    (exerciseStep s now).status = s.status ∧
      (exerciseStep s now).completed_at = s.completed_at := by
  unfold exerciseStep
  dsimp only
  rw [if_neg (by omega)]
  exact ⟨rfl, rfl⟩

/-- Reducing a successful `complete_exercise` call to its row update. -/
theorem complete_exercise_some {db : DB} {sid uid now : Nat} {s : TrainingSession}
    (h : db.sessions.find? (sessionOwnedInProgress db.kids sid uid) = some s) :
    complete_exercise db sid uid now =
      (some (exerciseStep s now),
        { db with
          sessions :=
            updateFirst (sessionOwnedInProgress db.kids sid uid)
              (fun _ => exerciseStep s now) db.sessions }) := by
  unfold complete_exercise
  rw [h]

/-- Rewriting one kid row's `stats`/`updated_at` does not change which
sessions the ownership join accepts. -/
theorem sessionOwnedBy_update_kid (l₁ l₂ : List Kid) (k₀ : Kid) (st : KidStats)
    (u : Option Nat) (sid uid : Nat) (t : TrainingSession) :
    sessionOwnedBy (l₁ ++ { k₀ with stats := st, updated_at := u } :: l₂) sid uid t
      = sessionOwnedBy (l₁ ++ k₀ :: l₂) sid uid t := by
  simp [sessionOwnedBy, List.any_append]

/-- One successful `complete_session` call, characterized against a split
store: the found session row is rewritten in place by `finalizeSession`,
the first kid row carrying the session's `kid_id` is rewritten in place
with `updateKidStats`, and the returned summary mirrors the new stats. -/
theorem complete_session_shape
    {db : DB} {sid uid : Nat} (cd : SessionCompletion) (now : Nat)
    {m₁ m₂ : List TrainingSession} {s : TrainingSession}
    {l₁ l₂ : List Kid} {k₀ : Kid}
    (hsess : db.sessions = m₁ ++ s :: m₂)
    (hm₁ : ∀ t ∈ m₁, sessionOwnedBy db.kids sid uid t = false)
    (hsp : sessionOwnedBy db.kids sid uid s = true)
    (hkids : db.kids = l₁ ++ k₀ :: l₂)
    (hl₁ : ∀ k ∈ l₁, (k.id == s.kid_id) = false)
    (hk₀ : (k₀.id == s.kid_id) = true) :
    (complete_session db sid cd uid now).1 =
      some { session := finalizeSession s cd now
             stats_updated :=
               { new_streak := (updateKidStats k₀.stats cd now).current_streak
                 total_minutes := (updateKidStats k₀.stats cd now).total_minutes
                 level_up := false } } ∧
    (complete_session db sid cd uid now).2.sessions
      = m₁ ++ finalizeSession s cd now :: m₂ ∧
    (complete_session db sid cd uid now).2.kids
      = l₁ ++ { k₀ with stats := updateKidStats k₀.stats cd now,
                        updated_at := some now } :: l₂ := by
  have hfind : db.sessions.find? (sessionOwnedBy db.kids sid uid) = some s := by
    rw [hsess]; exact find?_middle m₂ hm₁ hsp
  have hkfind : db.kids.find? (fun k => k.id == s.kid_id) = some k₀ := by
    rw [hkids]; exact find?_middle l₂ hl₁ hk₀
  have hupd : updateFirst (sessionOwnedBy db.kids sid uid)
      (fun _ => finalizeSession s cd now) db.sessions
      = m₁ ++ finalizeSession s cd now :: m₂ := by
    rw [hsess]; exact updateFirst_middle _ m₂ hm₁ hsp
  have hkupd : updateFirst (fun k => k.id == s.kid_id)
      (fun k => { k with stats := updateKidStats k₀.stats cd now,
                         updated_at := some now }) db.kids
      = l₁ ++ { k₀ with stats := updateKidStats k₀.stats cd now,
                        updated_at := some now } :: l₂ := by
    rw [hkids]; exact updateFirst_middle _ l₂ hl₁ hk₀
  unfold complete_session
  rw [hfind]
  dsimp only
  rw [hkfind]
  dsimp only
  cases hA : s.assignment_id with
  | none =>
    dsimp only
    exact ⟨rfl, hupd, hkupd⟩
  | some aid =>
    dsimp only
    cases hAf : db.assignments.find? (fun a => a.id == aid) with
    | none =>
      dsimp only
      exact ⟨rfl, hupd, hkupd⟩
    | some a₀ =>
      dsimp only
      exact ⟨rfl, hupd, hkupd⟩

@[simp] theorem completeAssignment_id (a : Assignment) (cd : SessionCompletion)
    (now : Nat) : (completeAssignment a cd now).id = a.id := rfl

@[simp] theorem completeAssignment_status (a : Assignment) (cd : SessionCompletion)
    (now : Nat) :
    (completeAssignment a cd now).status = AssignmentStatus.completed := rfl

@[simp] theorem completeAssignment_completion_time_minutes (a : Assignment)
    (cd : SessionCompletion) (now : Nat) :
    (completeAssignment a cd now).completion_time_minutes
      = some cd.total_time_minutes := rfl

/-- Every branch of `create_session` leaves the store untouched. -/
theorem create_session_state_unchanged (db : DB) (sd : TrainingSessionCreate)
    (uid : Nat) : (create_session db sd uid).2 = db := by
  unfold create_session
  cases db.kids.find?
      (fun k => k.id == sd.kid_id && k.user_id == uid && k.is_active) with
  | none => rfl
  | some k =>
    cases db.routines.find? (fun r => r.id == sd.routine_id && r.is_active) with
    | none => rfl
    | some r =>
      cases sd.assignment_id with
      | none => rfl
      | some aid =>
        dsimp only
        cases db.assignments.find?
            (fun a => a.id == aid && a.kid_id == sd.kid_id &&
              db.kids.any (fun k => k.id == a.kid_id && k.user_id == uid)) with
        | none => rfl
        | some a => rfl

/-- C9: after the kid-stats cascade of `complete_session`
(`updateKidStats`), `longest_streak ≥ current_streak` holds for every
starting value of the stats fields, every completion input and every
timestamp. -/
theorem stats_longest_ge_current_after_update
    (st : KidStats) (cd : SessionCompletion) (now : Nat) :
    (updateKidStats st cd now).longest_streak ≥
      (updateKidStats st cd now).current_streak := by
  rw [updateKidStats_longest_streak, updateKidStats_current_streak]
  exact le_max_right _ _

/-- C8: when the requesting user owns no kid matching the session's
`kid_id` (for any session carrying the requested id), `get_session`,
`complete_exercise` and `complete_session` all return `None` and leave
the entire store unchanged. -/
theorem ownership_isolation
    (db : DB) (sid uid now : Nat) (cd : SessionCompletion)
    (h : ∀ s ∈ db.sessions, s.id = sid →
      ∀ k ∈ db.kids, k.id = s.kid_id → k.user_id ≠ uid) :
    get_session db sid uid = none ∧
    complete_exercise db sid uid now = (none, db) ∧
    complete_session db sid cd uid now = (none, db) := by
  have hnone : db.sessions.find? (sessionOwnedBy db.kids sid uid) = none := by
    rw [List.find?_eq_none]
    intro s hs hc
    simp only [sessionOwnedBy, Bool.and_eq_true] at hc
    obtain ⟨h1, h2⟩ := hc
    rw [List.any_eq_true] at h2
    obtain ⟨k, hk, hkp⟩ := h2
    rw [Bool.and_eq_true] at hkp
    exact h s hs (by simpa using h1) k hk (by simpa using hkp.1)
      (by simpa using hkp.2)
  have hnoneIP : db.sessions.find? (sessionOwnedInProgress db.kids sid uid) = none := by
    rw [List.find?_eq_none]
    intro s hs hc
    simp only [sessionOwnedInProgress, Bool.and_eq_true] at hc
    exact (List.find?_eq_none.mp hnone) s hs hc.1
  refine ⟨?_, ?_, ?_⟩
  · simp only [get_session, hnone]
  · simp only [complete_exercise, hnoneIP]
  · simp only [complete_session, hnone]

/-- Witness for C8 at a concrete store: user `2` does not own `kid1`,
so all three operations addressed at `session1` return `None` and leave
`db0` unchanged. -/
theorem ownership_isolation_witness :
    get_session db0 1 2 = none ∧
    complete_exercise db0 1 2 7 = (none, db0) ∧
    complete_session db0 1 cd1 2 7 = (none, db0) :=
  ownership_isolation db0 1 2 7 cd1 (by decide)

/-- C2 counterexample: `sessionDone` is terminal (`COMPLETED`), yet
`complete_session` addressed at it does not fail — it succeeds and
mutates the stored row (its `exercises_completed` becomes the
caller-supplied `100`). -/
theorem terminal_session_mutated_by_complete_session :
    sessionDone.status = TrainingSessionStatus.completed ∧
    (complete_session dbA 2 cd100 1 9).1.isSome = true ∧
    ((complete_session dbA 2 cd100 1 9).2.sessions.find? (fun s => s.id == 2)).map
        TrainingSession.exercises_completed = some 100 ∧
    sessionDone.exercises_completed = 3 := by decide

/-- C2 amended: terminal states are absorbing for `complete_exercise`
only — when every session carrying the requested id is not
`IN_PROGRESS`, the call returns `None` and leaves the store unchanged
(`complete_session`, by contrast, force-finalizes terminal sessions). -/
theorem terminal_absorbing_for_complete_exercise
    (db : DB) (sid uid now : Nat)
    (h : ∀ s ∈ db.sessions, s.id = sid →
      s.status ≠ TrainingSessionStatus.in_progress) :
    complete_exercise db sid uid now = (none, db) := by
  have hnone : db.sessions.find? (sessionOwnedInProgress db.kids sid uid) = none := by
    rw [List.find?_eq_none]
    intro s hs hc
    simp only [sessionOwnedInProgress, sessionOwnedBy, Bool.and_eq_true] at hc
    exact h s hs (by simpa using hc.1.1) (by simpa using hc.2)
  simp only [complete_exercise, hnone]

/-- Witness for the amended C2: `complete_exercise` addressed at the
terminal `sessionDone` is a no-op. -/
theorem terminal_absorbing_for_complete_exercise_witness :
    complete_exercise dbA 2 1 7 = (none, dbA) :=
  terminal_absorbing_for_complete_exercise dbA 2 1 7 (by decide)

/-- C5 (code bug): whenever the three validation checks of
`create_session` pass, the construction of the session row raises
`TypeError` (the `total_exercises` keyword is passed twice), so the
operation never returns a created session and never inserts a row. -/
theorem create_session_always_raises_typeError
    (db : DB) (sd : TrainingSessionCreate) (uid : Nat)
    (hkid : (db.kids.find?
      (fun k => k.id == sd.kid_id && k.user_id == uid && k.is_active)).isSome)
    (hroutine : (db.routines.find?
      (fun r => r.id == sd.routine_id && r.is_active)).isSome)
    (hassign : ∀ aid, sd.assignment_id = some aid →
      (db.assignments.find?
        (fun a => a.id == aid && a.kid_id == sd.kid_id &&
          db.kids.any (fun k => k.id == a.kid_id && k.user_id == uid))).isSome) :
    create_session db sd uid
      = (Except.error CreateError.typeErrorDuplicateKeyword, db) := by
  obtain ⟨k, hk⟩ := Option.isSome_iff_exists.mp hkid
  obtain ⟨r, hr⟩ := Option.isSome_iff_exists.mp hroutine
  unfold create_session
  rw [hk]
  dsimp only
  rw [hr]
  dsimp only
  cases hA : sd.assignment_id with
  | none => rfl
  | some aid =>
    dsimp only
    obtain ⟨a, ha⟩ := Option.isSome_iff_exists.mp (hassign aid hA)
    rw [ha]

/-- Witness for C5: on the concrete valid request `sd1` (owned active
kid, active routine, no assignment) the call returns the `TypeError`
outcome and leaves the store unchanged. -/
theorem create_session_always_raises_typeError_witness :
    create_session db0 sd1 1
      = (Except.error CreateError.typeErrorDuplicateKeyword, db0) :=
  create_session_always_raises_typeError db0 sd1 1 (by decide) (by decide)
    (fun aid h => Option.noConfusion h)

/-- C6: every `complete_exercise` call on an owned `IN_PROGRESS` session
increments `exercises_completed` and `current_exercise_index` by exactly
one, auto-completes (status `COMPLETED`, completion timestamp set) when
the count reaches the total and stays `IN_PROGRESS` otherwise; and on
the concrete `total_exercises = 3` session, the third call yields status
`COMPLETED` with the completion timestamp set while a fourth call
returns `None` and leaves the store unchanged. -/
theorem complete_exercise_strict_increment :
    (∀ (db : DB) (sid uid now : Nat) (s : TrainingSession),
        db.sessions.find? (sessionOwnedInProgress db.kids sid uid) = some s →
        ∃ s', (complete_exercise db sid uid now).1 = some s' ∧
          s'.exercises_completed = s.exercises_completed + 1 ∧
          s'.current_exercise_index = s.current_exercise_index + 1 ∧
          (s.exercises_completed + 1 ≥ s.total_exercises →
            s'.status = TrainingSessionStatus.completed ∧
              s'.completed_at = some now) ∧
          (s.exercises_completed + 1 < s.total_exercises →
            s'.status = TrainingSessionStatus.in_progress ∧
              s'.completed_at = s.completed_at)) ∧
    (complete_exercise dbE2 1 1 23).1.map TrainingSession.status
      = some TrainingSessionStatus.completed ∧
    (complete_exercise dbE2 1 1 23).1.map TrainingSession.completed_at
      = some (some 23) ∧
    complete_exercise dbE3 1 1 24 = (none, dbE3) := by
  refine ⟨?_, by decide, by decide, by decide⟩
  intro db sid uid now s h
  refine ⟨exerciseStep s now, ?_, by simp, by simp, ?_, ?_⟩
  · rw [complete_exercise_some h]
  · exact exerciseStep_status_of_ge s now
  · intro hlt
    obtain ⟨h1, h2⟩ := exerciseStep_status_of_lt s now hlt
    have hst : s.status = TrainingSessionStatus.in_progress := by
      have hp := List.find?_some h
      rw [sessionOwnedInProgress, Bool.and_eq_true] at hp
      simpa using hp.2
    exact ⟨h1.trans hst, h2⟩

/-- Witness for C6 applied at `session1`: the first call reports one
completed exercise. -/
theorem complete_exercise_strict_increment_witness :
    (complete_exercise db0 1 1 21).1.map TrainingSession.exercises_completed
      = some 1 := by
  obtain ⟨s', h1, h2, _⟩ :=
    complete_exercise_strict_increment.1 db0 1 1 21 session1 (by decide)
  rw [h1, Option.map_some', h2]
  rfl

/-- C4 counterexample: `session1` satisfies the bound
(`0 ≤ 3`), but `complete_session` with caller-supplied
`exercises_completed = 100` stores a session with
`exercises_completed = 100 > 3 = total_exercises`, so the bound is not
preserved by every engine operation. -/
theorem exercises_bound_violated_by_complete_session :
    session1.exercises_completed ≤ session1.total_exercises ∧
    ((complete_session db0 1 cd100 1 9).2.sessions.find? (fun s => s.id == 1)).map
        (fun s => (s.exercises_completed, s.total_exercises)) = some (100, 3) ∧
    ¬ (100 ≤ 3) := by decide

/-- C4 amended: `exercises_completed ≤ total_exercises` holds after
every `complete_exercise` call on a session satisfying the progression
invariant (and the invariant is re-established), and `create_session`
never changes the store at all; the bound is not preserved by
`complete_session`, which overwrites the count with the caller-supplied
value. -/
theorem exercises_bound_preserved_by_progression :
    (∀ (db : DB) (sd : TrainingSessionCreate) (uid : Nat),
        (create_session db sd uid).2 = db) ∧
    (∀ (db : DB) (sid uid now : Nat) (s : TrainingSession),
        db.sessions.find? (sessionOwnedInProgress db.kids sid uid) = some s →
        sessionInv s →
        ∃ s', (complete_exercise db sid uid now).1 = some s' ∧
          s'.exercises_completed ≤ s'.total_exercises ∧ sessionInv s') := by
  refine ⟨create_session_state_unchanged, ?_⟩
  intro db sid uid now s h hinv
  have hst : s.status = TrainingSessionStatus.in_progress := by
    have hp := List.find?_some h
    rw [sessionOwnedInProgress, Bool.and_eq_true] at hp
    simpa using hp.2
  have hlt : s.exercises_completed < s.total_exercises := hinv hst
  refine ⟨exerciseStep s now, by rw [complete_exercise_some h], ?_, ?_⟩
  · rw [exerciseStep_exercises_completed, exerciseStep_total_exercises]
    omega
  · intro hsp
    rw [exerciseStep_exercises_completed, exerciseStep_total_exercises]
    by_cases hge : s.exercises_completed + 1 ≥ s.total_exercises
    · exfalso
      have hc := (exerciseStep_status_of_ge s now hge).1
      exact TrainingSessionStatus.noConfusion (hc.symm.trans hsp)
    · omega

/-- Witness for the amended C4: creation leaves `db0` unchanged and the
first exercise completion on `session1` keeps the bound. -/
theorem exercises_bound_preserved_by_progression_witness :
    (create_session db0 sd1 1).2 = db0 ∧
    (complete_exercise db0 1 1 21).1.map
        (fun s => decide (s.exercises_completed ≤ s.total_exercises))
      = some true := by
  constructor
  · exact exercises_bound_preserved_by_progression.1 db0 sd1 1
  · obtain ⟨s', h1, h2, _⟩ :=
      exercises_bound_preserved_by_progression.2 db0 1 1 21 session1
        (by decide) (fun _ => by decide)
    rw [h1, Option.map_some']
    simp [h2]

/-- The ownership join only reads `id` and `kid_id`, which
`finalizeSession` preserves. -/
theorem sessionOwnedBy_finalizeSession (kids : List Kid) (sid uid : Nat)
    (s : TrainingSession) (cd : SessionCompletion) (now : Nat) :
    sessionOwnedBy kids sid uid (finalizeSession s cd now)
      = sessionOwnedBy kids sid uid s := rfl

/-- C3: `complete_session` requires only that the session exists and is
owned — no status precondition.  For every owned session of any status
it returns a result whose session is the input row overwritten by the
caller-supplied completion fields (status `COMPLETED`, timestamp, time,
exercise count, rating, note), commits that row, and when the session
references an assignment whose row exists, that assignment is flipped to
`COMPLETED` with `completion_time_minutes` equal to the input's
`total_time_minutes` exactly. -/
theorem complete_session_force_finalize
    (db : DB) (sid uid now : Nat) (cd : SessionCompletion) (s : TrainingSession)
    (hs : db.sessions.find? (sessionOwnedBy db.kids sid uid) = some s) :
    ∃ r, (complete_session db sid cd uid now).1 = some r ∧
      r.session = finalizeSession s cd now ∧
      r.session.status = TrainingSessionStatus.completed ∧
      r.session.exercises_completed = cd.exercises_completed ∧
      r.session.total_time_minutes = some cd.total_time_minutes ∧
      r.session.overall_rating = some cd.overall_rating ∧
      r.session.notes = cd.notes ∧
      r.session.completed_at = some now ∧
      (complete_session db sid cd uid now).2.sessions
        = updateFirst (sessionOwnedBy db.kids sid uid)
            (fun _ => finalizeSession s cd now) db.sessions ∧
      (∀ aid a₀, s.assignment_id = some aid →
        db.assignments.find? (fun a => a.id == aid) = some a₀ →
        (complete_session db sid cd uid now).2.assignments.find?
            (fun a => a.id == aid) = some (completeAssignment a₀ cd now) ∧
        (completeAssignment a₀ cd now).status = AssignmentStatus.completed ∧
        (completeAssignment a₀ cd now).completion_time_minutes
          = some cd.total_time_minutes) := by
  unfold complete_session
  rw [hs]
  dsimp only
  cases hk : db.kids.find? (fun k => k.id == s.kid_id) with
  | none =>
    dsimp only
    cases hA : s.assignment_id with
    | none =>
      dsimp only
      refine ⟨_, rfl, rfl, rfl, rfl, rfl, rfl, rfl, rfl, rfl, ?_⟩
      intro aid a₀ haid
      exact Option.noConfusion haid
    | some aid =>
      dsimp only
      cases hAf : db.assignments.find? (fun a => a.id == aid) with
      | none =>
        dsimp only
        refine ⟨_, rfl, rfl, rfl, rfl, rfl, rfl, rfl, rfl, rfl, ?_⟩
        intro aid' a₀ haid haf
        injection haid with he
        subst he
        rw [hAf] at haf
        exact Option.noConfusion haf
      | some a₀ =>
        dsimp only
        refine ⟨_, rfl, rfl, rfl, rfl, rfl, rfl, rfl, rfl, rfl, ?_⟩
        intro aid' a₁ haid haf
        injection haid with he
        subst he
        rw [hAf] at haf
        injection haf with he2
        subst he2
        obtain ⟨p₁, p₂, hsplit, hp₁⟩ := find?_decomp hAf
        have hpa := List.find?_some hAf
        refine ⟨?_, rfl, rfl⟩
        rw [hsplit, updateFirst_middle _ p₂ hp₁ hpa]
        exact find?_middle p₂ hp₁ (by simpa using hpa)
  | some kid =>
    dsimp only
    cases hA : s.assignment_id with
    | none =>
      dsimp only
      refine ⟨_, rfl, rfl, rfl, rfl, rfl, rfl, rfl, rfl, rfl, ?_⟩
      intro aid a₀ haid
      exact Option.noConfusion haid
    | some aid =>
      dsimp only
      cases hAf : db.assignments.find? (fun a => a.id == aid) with
      | none =>
        dsimp only
        refine ⟨_, rfl, rfl, rfl, rfl, rfl, rfl, rfl, rfl, rfl, ?_⟩
        intro aid' a₀ haid haf
        injection haid with he
        subst he
        rw [hAf] at haf
        exact Option.noConfusion haf
      | some a₀ =>
        dsimp only
        refine ⟨_, rfl, rfl, rfl, rfl, rfl, rfl, rfl, rfl, rfl, ?_⟩
        intro aid' a₁ haid haf
        injection haid with he
        subst he
        rw [hAf] at haf
        injection haf with he2
        subst he2
        obtain ⟨p₁, p₂, hsplit, hp₁⟩ := find?_decomp hAf
        have hpa := List.find?_some hAf
        refine ⟨?_, rfl, rfl⟩
        rw [hsplit, updateFirst_middle _ p₂ hp₁ hpa]
        exact find?_middle p₂ hp₁ (by simpa using hpa)

/-- Witness for C3 at the terminal `sessionDone` (status `COMPLETED`):
the call still succeeds, the returned session is `COMPLETED`, and
`assignment1` receives `completion_time_minutes = 10`. -/
theorem complete_session_force_finalize_witness :
    (complete_session dbA 2 cd1 1 9).1.map (fun r => r.session.status)
      = some TrainingSessionStatus.completed ∧
    ((complete_session dbA 2 cd1 1 9).2.assignments.find? (fun a => a.id == 1)).map
        Assignment.completion_time_minutes = some (some 10) := by
  obtain ⟨r, h1, _, h3, _, _, _, _, _, _, hA⟩ :=
    complete_session_force_finalize dbA 2 1 9 cd1 sessionDone (by decide)
  obtain ⟨hf, _, hctm⟩ := hA 1 assignment1 rfl (by decide)
  constructor
  · rw [h1, Option.map_some', h3]
  · rw [hf, Option.map_some', hctm]
    rfl

/-- C7: a successful `complete_session` rewrites the session's kid's
stats exactly as the cascade prescribes — `total_routines`,
`this_week_completed` and `current_streak` each incremented by one
unconditionally, `total_minutes` increased by the input's
`total_time_minutes`, `last_activity` stamped, `longest_streak` raised
to `max longest_streak (current_streak + 1)` — while
`this_week_assigned` and `favorite_category` are unchanged. -/
theorem stats_cascade_exact_updates
    (db : DB) (sid uid now : Nat) (cd : SessionCompletion)
    (s : TrainingSession) (k₀ : Kid)
    (hs : db.sessions.find? (sessionOwnedBy db.kids sid uid) = some s)
    (hk : db.kids.find? (fun k => k.id == s.kid_id) = some k₀) :
    ∃ k', (complete_session db sid cd uid now).2.kids.find?
        (fun k => k.id == s.kid_id) = some k' ∧
      k'.stats = updateKidStats k₀.stats cd now ∧
      k'.stats.total_routines = k₀.stats.total_routines + 1 ∧
      k'.stats.this_week_completed = k₀.stats.this_week_completed + 1 ∧
      k'.stats.current_streak = k₀.stats.current_streak + 1 ∧
      k'.stats.total_minutes = k₀.stats.total_minutes + cd.total_time_minutes ∧
      k'.stats.last_activity = some now ∧
      k'.stats.longest_streak
        = max k₀.stats.longest_streak (k₀.stats.current_streak + 1) ∧
      k'.stats.this_week_assigned = k₀.stats.this_week_assigned ∧
      k'.stats.favorite_category = k₀.stats.favorite_category := by
  obtain ⟨m₁, m₂, hsess, hm₁⟩ := find?_decomp hs
  have hsp := List.find?_some hs
  obtain ⟨l₁, l₂, hkids, hl₁⟩ := find?_decomp hk
  have hk₀ := List.find?_some hk
  obtain ⟨h1, h2, h3⟩ := complete_session_shape cd now hsess hm₁ hsp hkids hl₁ hk₀
  refine ⟨{ k₀ with
      stats := updateKidStats k₀.stats cd now
      updated_at := some now }, ?_, rfl, by simp, by simp, by simp, by simp,
    by simp, by simp, by simp, by simp⟩
  rw [h3]
  exact find?_middle l₂ hl₁ (by simpa using hk₀)

/-- Witness for C7 at `db0`: after completing `session1`, `kid1`'s
stats read `total_routines = 1`, `current_streak = 1`,
`total_minutes = 10`, `this_week_assigned = 0`. -/
theorem stats_cascade_exact_updates_witness :
    ((complete_session db0 1 cd1 1 11).2.kids.find?
        (fun k => k.id == session1.kid_id)).map
      (fun k => (k.stats.total_routines, k.stats.current_streak,
        k.stats.total_minutes, k.stats.this_week_assigned))
      = some (1, 1, 10, 0) := by
  obtain ⟨k', hf, hstats, _⟩ :=
    stats_cascade_exact_updates db0 1 1 11 cd1 session1 kid1 (by decide) (by decide)
  rw [hf, Option.map_some', hstats]
  rfl

/-- C1 counterexample: the second `complete_session` call on the very
same session does not return NotFound — it succeeds again and the kid's
`total_routines` ends at `2` although it started at `0`, so the cascade
ran twice for one session. -/
theorem complete_session_not_idempotent :
    (complete_session (complete_session db0 1 cd1 1 11).2 1 cd1 1 12).1.isSome
      = true ∧
    ((complete_session (complete_session db0 1 cd1 1 11).2 1 cd1 1 12).2.kids.find?
        (fun k => k.id == 1)).map (fun k => k.stats.total_routines) = some 2 ∧
    kid1.stats.total_routines = 0 := by decide

/-- C1 amended: the completion cascade executes once per successful
call, not at most once per session — a second `complete_session` on the
same owned session succeeds again and increments the kid's stats a
second time (`total_routines` and `current_streak` grow by two over the
two calls, `total_minutes` by both inputs). -/
theorem complete_session_cascade_each_call
    (db : DB) (sid uid : Nat) (cd cd' : SessionCompletion) (now now' : Nat)
    (s : TrainingSession) (k₀ : Kid)
    (hs : db.sessions.find? (sessionOwnedBy db.kids sid uid) = some s)
    (hk : db.kids.find? (fun k => k.id == s.kid_id) = some k₀) :
    ∃ r₁ r₂ k₂,
      (complete_session db sid cd uid now).1 = some r₁ ∧
      (complete_session (complete_session db sid cd uid now).2 sid cd' uid now').1
        = some r₂ ∧
      (complete_session (complete_session db sid cd uid now).2 sid cd' uid
          now').2.kids.find? (fun k => k.id == s.kid_id) = some k₂ ∧
      k₂.stats.total_routines = k₀.stats.total_routines + 2 ∧
      k₂.stats.current_streak = k₀.stats.current_streak + 2 ∧
      k₂.stats.total_minutes
        = k₀.stats.total_minutes + cd.total_time_minutes
            + cd'.total_time_minutes := by
  obtain ⟨m₁, m₂, hsess, hm₁⟩ := find?_decomp hs
  have hsp := List.find?_some hs
  obtain ⟨l₁, l₂, hkids, hl₁⟩ := find?_decomp hk
  have hk₀ := List.find?_some hk
  obtain ⟨h1, h2, h3⟩ := complete_session_shape cd now hsess hm₁ hsp hkids hl₁ hk₀
  have hcong : ∀ t, sessionOwnedBy (complete_session db sid cd uid now).2.kids
      sid uid t = sessionOwnedBy db.kids sid uid t := by
    intro t
    rw [h3, sessionOwnedBy_update_kid, ← hkids]
  have hm₁' : ∀ t ∈ m₁,
      sessionOwnedBy (complete_session db sid cd uid now).2.kids sid uid t
        = false := by
    intro t ht
    rw [hcong]
    exact hm₁ t ht
  have hsp' : sessionOwnedBy (complete_session db sid cd uid now).2.kids sid uid
      (finalizeSession s cd now) = true := by
    rw [hcong, sessionOwnedBy_finalizeSession]
    exact hsp
  have hl₁' : ∀ k ∈ l₁,
      (k.id == (finalizeSession s cd now).kid_id) = false := by
    intro k hkm
    rw [finalizeSession_kid_id]
    exact hl₁ k hkm
  have hk₀' : (({ k₀ with
      stats := updateKidStats k₀.stats cd now
      updated_at := some now } : Kid).id
        == (finalizeSession s cd now).kid_id) = true := by
    simpa using hk₀
  obtain ⟨g1, g2, g3⟩ := complete_session_shape cd' now' h2 hm₁' hsp' h3 hl₁' hk₀'
  refine ⟨_, _,
    { k₀ with
      stats := updateKidStats (updateKidStats k₀.stats cd now) cd' now'
      updated_at := some now' }, h1, g1, ?_, ?_, ?_, ?_⟩
  · rw [g3]
    exact find?_middle l₂ hl₁ (by simpa using hk₀)
  · dsimp only
    simp only [updateKidStats_total_routines]
  · dsimp only
    simp only [updateKidStats_current_streak]
  · dsimp only
    simp only [updateKidStats_total_minutes]

/-- Witness for the amended C1: two completions of `session1` leave
`kid1` with `total_minutes = 20` (10 per call). -/
theorem complete_session_cascade_each_call_witness :
    ((complete_session (complete_session db0 1 cd1 1 11).2 1 cd1 1 12).2.kids.find?
        (fun k => k.id == session1.kid_id)).map (fun k => k.stats.total_minutes)
      = some 20 := by
  obtain ⟨r₁, r₂, k₂, h1, h2, hf, htr, hcs, hm⟩ :=
    complete_session_cascade_each_call db0 1 1 cd1 cd1 11 12 session1 kid1
      (by decide) (by decide)
  rw [hf, Option.map_some', hm]
  rfl

/-- C10: whenever `complete_session` returns a result, the ownership
join found a session and a kid row with the session's `kid_id` exists,
so the fallback summary (`new_streak = 0`, `total_minutes = 0`, stats
write skipped) is unreachable: the returned summary always mirrors the
updated stats and the kid row is always rewritten. -/
theorem complete_session_kid_branch_unreachable
    (db : DB) (sid uid now : Nat) (cd : SessionCompletion)
    (r : CompleteSessionResult)
    (hr : (complete_session db sid cd uid now).1 = some r) :
    ∃ s k₀, db.sessions.find? (sessionOwnedBy db.kids sid uid) = some s ∧
      db.kids.find? (fun k => k.id == s.kid_id) = some k₀ ∧
      r.stats_updated.new_streak = (updateKidStats k₀.stats cd now).current_streak ∧
      r.stats_updated.total_minutes = (updateKidStats k₀.stats cd now).total_minutes ∧
      (complete_session db sid cd uid now).2.kids.find? (fun k => k.id == s.kid_id)
        = some { k₀ with
            stats := updateKidStats k₀.stats cd now
            updated_at := some now } := by
  cases hfs : db.sessions.find? (sessionOwnedBy db.kids sid uid) with
  | none =>
    rw [show complete_session db sid cd uid now = (none, db) by
      simp only [complete_session, hfs]] at hr
    exact Option.noConfusion hr
  | some s =>
    have hsp := List.find?_some hfs
    have hany : db.kids.any (fun k => k.id == s.kid_id && k.user_id == uid)
        = true := by
      have hsp2 := hsp
      simp only [sessionOwnedBy, Bool.and_eq_true] at hsp2
      exact hsp2.2
    obtain ⟨k, hkmem, hkp⟩ := List.any_eq_true.mp hany
    have hkid : (k.id == s.kid_id) = true := by
      rw [Bool.and_eq_true] at hkp
      exact hkp.1
    have hksome : (db.kids.find? (fun k => k.id == s.kid_id)).isSome :=
      List.find?_isSome.mpr ⟨k, hkmem, hkid⟩
    obtain ⟨k₀, hk⟩ := Option.isSome_iff_exists.mp hksome
    obtain ⟨m₁, m₂, hsess, hm₁⟩ := find?_decomp hfs
    obtain ⟨l₁, l₂, hkids, hl₁⟩ := find?_decomp hk
    have hk₀ := List.find?_some hk
    obtain ⟨h1, h2, h3⟩ := complete_session_shape cd now hsess hm₁ hsp hkids hl₁ hk₀
    rw [h1] at hr
    injection hr with hr
    subst hr
    refine ⟨s, k₀, rfl, hk, rfl, rfl, ?_⟩
    rw [h3]
    exact find?_middle l₂ hl₁ (by simpa using hk₀)

/-- Witness for C10: the concrete successful completion of `session1`
reports the true post-update streak (`1`), not the fallback `0`. -/
theorem complete_session_kid_branch_unreachable_witness :
    (complete_session db0 1 cd1 1 11).1.map
        (fun r => r.stats_updated.new_streak) = some 1 := by
  have hsome : ((complete_session db0 1 cd1 1 11).1).isSome = true := by decide
  obtain ⟨s, k₀, h1, h2, h3, _, _⟩ :=
    complete_session_kid_branch_unreachable db0 1 1 11 cd1
      ((complete_session db0 1 cd1 1 11).1.get hsome) (Option.some_get hsome).symm
  have hseq : s = session1 := by
    have hconc : db0.sessions.find? (sessionOwnedBy db0.kids 1 1)
        = some session1 := by decide
    rw [hconc] at h1
    exact (Option.some_inj.mp h1).symm
  subst hseq
  have hkeq : k₀ = kid1 := by
    have hconc : db0.kids.find? (fun k => k.id == session1.kid_id)
        = some kid1 := by decide
    rw [hconc] at h2
    exact (Option.some_inj.mp h2).symm
  subst hkeq
  rw [← Option.some_get hsome, Option.map_some']
  rw [h3]
  rfl

end JumpingKid
